import Mathlib

/-!
Verification development for the RPi departure-board train-service cache
(`Src/train_service_parser.cpp` / `.h`) and its HTML text sanitizer
(`Src/HTML_processor.cpp` / `.h`).

The C++ code is shallowly embedded: strings are `List Char` / `String`,
`std::vector` is `List`, `std::unordered_map<std::string,size_t>` is an
association list with the map's find/overwrite-insert semantics, machine
integers (`time_t`, `int64_t`, `uint64_t`, `size_t`) are `Int`/`Nat`
(the program never comes near overflow for these quantities), and thrown
exceptions are explicit error values.  Index loops are embedded either as
maps/folds over `List.range` or as fuel-indexed structural recursions
(the fuel passed at top level always dominates the loop bound, so the
embedded function computes exactly the C++ loop).
-/

/-! ## HTML processor (`Src/HTML_processor.cpp`) -/

/-- The fixed entity table of `HTMLProcessor::entities`, in source order:
each entry is the entity's characters and its single-character
replacement. -/
def entities : List (List Char × Char) :=
  [("&quot;".toList, '"'),
   ("&amp;".toList, '&'),
   ("&lt;".toList, '<'),
   ("&gt;".toList, '>'),
   ("&#39;".toList, '\''),
   ("&nbsp;".toList, ' ')]

/-- The entity scan at a `'&'`: the first table entry whose characters are
a prefix of the remaining input (this is exactly the source's
`remaining >= entity.length && memcmp(...) == 0` test applied in table
order), returned with its length so the caller can skip `length` input
characters. -/
def matchEntity (cs : List Char) : Option (Char × Nat) :=
  (entities.find? (fun e => e.1.isPrefixOf cs)).map (fun e => (e.2, e.1.length))

/-- The five characters the NEON path treats as special
(`'<'`, `'>'`, `'&'`, `'\n'`, `'\r'`). -/
def isSpecialChar (c : Char) : Bool :=
  c = '<' || c = '>' || c = '&' || c = '\n' || c = '\r'

/-- The scalar character loop shared by `processHtmlTagsRegular` (from
index 0) and the tail loop of `processHtmlTagsNEON` (from the first index
past the 16-wide chunks): skip characters between `<` and `>`, decode
entities at `&` (advancing by the entity length), drop `'\n'`/`'\r'`, and
copy everything else.  The first argument is fuel; every step advances
`i`, so fuel `data.length` from any start index reproduces the C++ loop
exactly. -/
def scalarLoop (data : List Char) : Nat → Nat → Bool → List Char
  | 0, _, _ => []
  | fuel + 1, i, inTag =>
    if i < data.length then
      let c := data.getD i ' '
      if c = '<' then scalarLoop data fuel (i + 1) true
      else if c = '>' then scalarLoop data fuel (i + 1) false
      else if inTag then scalarLoop data fuel (i + 1) inTag
      else if c = '&' then
        match matchEntity (data.drop i) with
        | some (r, len) => r :: scalarLoop data fuel (i + len) inTag
        | none => c :: scalarLoop data fuel (i + 1) inTag
      else if c = '\n' ∨ c = '\r' then scalarLoop data fuel (i + 1) inTag
      else c :: scalarLoop data fuel (i + 1) inTag
    else []

/-- `HTMLProcessor::processHtmlTagsRegular`, the scalar reference
implementation. -/
def processHtmlTagsRegular (data : List Char) : List Char :=
  scalarLoop data data.length 0 false

/-- The byte-by-byte handling of one 16-character chunk inside
`processHtmlTagsNEON` (the branch taken when the chunk contains a special
character).  The precomputed comparison masks `less_results[j]` etc. are
embedded as direct character comparisons, which they equal by
construction.  `j` runs while `j < 16 ∧ i + j < length`; an entity match
advances `j` by the entity length (`j += length - 1` plus the loop
increment), possibly past 16, in which case the loop exits with the
remaining entity characters unconsumed.  Returns the chunk's output and
the final `inTag` flag.  Fuel 16 dominates the loop. -/
def neonInnerLoop (data : List Char) (i : Nat) : Nat → Nat → Bool → List Char × Bool
  | 0, _, inTag => ([], inTag)
  | fuel + 1, j, inTag =>
    if j < 16 ∧ i + j < data.length then
      let c := data.getD (i + j) ' '
      if c = '<' then neonInnerLoop data i fuel (j + 1) true
      else if c = '>' then neonInnerLoop data i fuel (j + 1) false
      else if inTag then neonInnerLoop data i fuel (j + 1) inTag
      else if c = '&' then
        match matchEntity (data.drop (i + j)) with
        | some (r, len) =>
          let res := neonInnerLoop data i fuel (j + len) inTag
          (r :: res.1, res.2)
        | none =>
          let res := neonInnerLoop data i fuel (j + 1) inTag
          (c :: res.1, res.2)
      else if c = '\n' ∨ c = '\r' then neonInnerLoop data i fuel (j + 1) inTag
      else
        let res := neonInnerLoop data i fuel (j + 1) inTag
        (c :: res.1, res.2)
    else ([], inTag)

/-- The 16-character chunk loop of `processHtmlTagsNEON`: while
`i < neon_end` (`neon_end = (length / 16) * 16`), a chunk with no special
character is appended wholesale when not inside a tag (and skipped
entirely when inside one); a chunk with a special character is processed
byte by byte; either way `i` advances by exactly 16.  After the chunk
loop the scalar tail loop finishes the remaining characters.  Fuel
`data.length + 1` dominates the chunk count. -/
def neonChunkLoop (data : List Char) (neonEnd : Nat) : Nat → Nat → Bool → List Char
  | 0, _, _ => []
  | fuel + 1, i, inTag =>
    if i < neonEnd then
      let chunk := (data.drop i).take 16
      if chunk.any isSpecialChar then
        let res := neonInnerLoop data i 16 0 inTag
        res.1 ++ neonChunkLoop data neonEnd fuel (i + 16) res.2
      else
        (if inTag then [] else chunk) ++ neonChunkLoop data neonEnd fuel (i + 16) inTag
    else scalarLoop data data.length i inTag

/-- `HTMLProcessor::processHtmlTagsNEON`, the vectorized implementation.
The model works on characters; on ASCII input (all inputs used in the
theorems below) characters and the C++ code's bytes coincide, so the
16-character chunks are the source's 16-byte chunks. -/
def processHtmlTagsNEON (data : List Char) : List Char :=
  neonChunkLoop data ((data.length / 16) * 16) (data.length + 1) 0 false

/-- `HTMLProcessor::processHtmlTagsInPlace`: the in-place variant runs the
identical state machine as the scalar loop (same branch structure, same
characters emitted in the same order), writing forward into its argument
and truncating; its output string therefore equals the scalar result. -/
def processHtmlTagsInPlace (s : String) : String :=
  String.mk (processHtmlTagsRegular s.toList)

/-! ## JSON data model (the schema subset consumed by the parser)

An absent key and a JSON `null` value behave identically in every
`extractJSONvalue` call, so both are modelled as `none`.  Nested objects
that are only ever read through a single extractor are flattened to the
extracted field (e.g. `cancelReason` is read only as
`cancelReason.Value`, `destination` only as
`destination[i].locationName`, `formation.serviceLoading.loadingPercentage`
only as its `type` and `value` members, `nrccMessages[i]` only as its
`xhtmlMessage`). -/

structure ServiceJson where
  stdSpecified : Option Bool := none
  std : Option String := none
  etdSpecified : Option Bool := none
  etd : Option String := none
  platform : Option String := none
  trainid : Option String := none
  destination : Option (List (Option String)) := none
  operatorName : Option String := none
  length : Option Nat := none
  isCancelled : Option Bool := none
  cancelReasonValue : Option (Option Nat) := none
  delayReasonValue : Option (Option Nat) := none
  adhocAlerts : Option String := none
  departureType : Option String := none
  origin : Option (List (Option String)) := none
  loadingType : Option String := none
  loadingValue : Option Nat := none
  serviceIsSupressed : Option Bool := none
  isPassengerService : Option Bool := none
  platformIsHidden : Option Bool := none
deriving DecidableEq

structure Snapshot where
  trainServices : Option (List ServiceJson) := none
  locationName : Option String := none
  nrccMessages : Option (List (Option String)) := none
deriving DecidableEq

/-- One record of the reason-code feed.  The source reads `code` with an
unguarded `.get<size_t>()`, so it is a required field of the model. -/
structure ReasonJson where
  code : Nat
  lateReason : Option String := none
  cancReason : Option String := none
deriving DecidableEq

/-! ## The extractor helpers of `train_service_parser.h` -/

/-- `extractJSONvalue<std::string>`: absent/null yields the default, and a
present but **empty** string also yields the default. -/
def extractJSONvalueStr (o : Option String) (d : String) : String :=
  match o with
  | none => d
  | some s => if s = "" then d else s

/-- `extractJSONvalue<bool>`. -/
def extractJSONvalueBool (o : Option Bool) (d : Bool) : Bool := o.getD d

/-- `extractJSONvalue<size_t>`. -/
def extractJSONvalueNat (o : Option Nat) (d : Nat) : Nat := o.getD d

/-- `extractJSONvalue<size_t>(json["reason"], "Value", 0)` where the
`"reason"` object itself may be absent: either level missing yields 0. -/
def extractReasonValue (o : Option (Option Nat)) : Nat := (o.getD none).getD 0

/-- `extractJSONTimeString`: absent/null/empty yields the default, else
`value.substr(11,5)` — the `HH:MM` slice of an ISO `yyyy-mm-ddThh:mm:ss`
timestamp.  (For a non-empty string shorter than 12 characters the C++
`substr` would throw; feed timestamps always have full length, and the
model returns the truncated slice there.) -/
def extractJSONTimeString (o : Option String) (d : String) : String :=
  match o with
  | none => d
  | some s => if s = "" then d else String.mk ((s.toList.drop 11).take 5)

/-- `extractJSONTime`: absent/null/empty yields the default time, else the
`%Y-%m-%dT%H:%M:%S` parse via `std::get_time`/`mktime`, which is handed
in as the function `parseTime` (an external C library call), with parse
failure again yielding the default. -/
def extractJSONTime (parseTime : String → Option Int) (o : Option String) (d : Int) : Int :=
  match o with
  | none => d
  | some s => if s = "" then d else (parseTime s).getD d

/-- `extractNestedJSONvalue<std::string>(source, key1, idx, key2, d)`:
the default unless `key1` is a present array with more than `idx`
elements whose `idx`-th element has a non-null, non-empty `key2`. -/
def extractNestedJSONvalueStr (o : Option (List (Option String))) (idx : Nat) (d : String) :
    String :=
  match o with
  | none => d
  | some arr =>
    match arr.getD idx none with
    | none => d
    | some s => if s = "" then d else s

/-! ## Cached record types (`train_service_parser.h`)

`std::vector<T> v(n)` value-initializes its elements, so the freshly
created tier records of each ingestion pass have empty strings, `false`
flags and zero numbers: exactly the `{}` literal of these structures. -/

structure BasicServiceInfo where
  trainid : String := ""
  destination : String := ""
  scheduledDepartureTime : String := ""
  estimatedDepartureTime : String := ""
  operator_name : String := ""
  coaches : String := ""
  isCancelled : Bool := false
  isDelayed : Bool := false
  cancelReason : String := ""
  delayReason : String := ""
  adhocAlerts : String := ""
  apiDataVersion : Int := 0
  static_data_available : Bool := false
deriving DecidableEq

structure CoachInfo where
  standard_class : Bool := false
  first_class : Bool := false
  service_loading : Nat := 0
  standard_toilet : Bool := false
  accessible_toilet : Bool := false
  number : String := ""
deriving DecidableEq

structure AdditionalServiceInfo where
  trainid : String := ""
  apiDataVersion : Int := 0
  static_data_available : Bool := false
  origin : String := ""
  loading_type : String := ""
  loadingPercentage : Nat := 0
  Formation : List CoachInfo := []
  platformIsHidden : Bool := false
  serviceIsSupressed : Bool := false
  isPassengerService : Bool := false
deriving DecidableEq

structure LocationInfo where
  locationName : String := ""
  isPass : Bool := false
  isCancelled : Bool := false
  ArrivalTime : String := ""
  ArrivalType : String := ""
  DepartureTime : String := ""
deriving DecidableEq

structure CallingPointsInfo where
  trainid : String := ""
  apiDataVersion : Int := 0
  callingPointsCached : Bool := false
  callingPoints : String := ""
  callingPoints_with_ETD : String := ""
  PreviousCallingPoints : List LocationInfo := []
  SubsequentCallingPoints : List LocationInfo := []
  num_previous_calling_points : Nat := 0
  num_subsequent_calling_points : Nat := 0
  service_location_cached : Bool := false
  service_location : String := ""
deriving DecidableEq

/-- `TrainServiceParser::ServiceSequence`.  `INVALID_TIME` is the
`time_t` value 0. -/
structure ServiceSequence where
  std_specified : Bool := false
  std : Int := 0
  etd_specified : Bool := false
  etd : Int := 0
  departure_time : Int := 0
  platform : String := ""
  trainid : String := ""
  api_version : Int := 0
deriving DecidableEq

def INVALID_TIME : Int := 0

structure DelayCancelReason where
  delayReason : String := ""
  cancelReason : String := ""
  code : String := ""
deriving DecidableEq

/-- Thrown exceptions, by C++ exception type. -/
inductive ParserError where
  | outOfRange (msg : String)
  | runtimeError (msg : String)
deriving DecidableEq

/-! ## `std::unordered_map<std::string, size_t>` -/

/-- `map.find(k)`: the stored value of key `k`, if present. -/
def umapFind : List (String × Nat) → String → Option Nat
  | [], _ => none
  | p :: rest, k => if p.1 = k then some p.2 else umapFind rest k

/-- `map[k] = v`: overwrite the existing entry for `k`, or add a new one
(the map never holds two entries with the same key). -/
def umapInsert (m : List (String × Nat)) (k : String) (v : Nat) : List (String × Nat) :=
  if (umapFind m k).isSome then m.map (fun p => if p.1 = k then (k, v) else p)
  else m ++ [(k, v)]

/-- `map.size()`. -/
def umapSize (m : List (String × Nat)) : Nat := m.length

/-! ## Parser state: the member variables of `TrainServiceParser` -/

structure ParserState where
  max_json_size : Nat := 10
  number_of_departures : Nat := 3
  cached_trainIDs : List (String × Nat) := []
  selectPlatform : Bool := false
  selected_platform : String := ""
  refdata_loaded : Bool := false
  reason_codes : List (String × Nat) := []
  delay_cancel_reasons : List DelayCancelReason := []
  location_name : String := ""
  NRCC_message : String := ""
  data : Snapshot := {}
  api_data_version : Int := 0
  services_sequence : List ServiceSequence := []
  services_basic : List BasicServiceInfo := []
  services_additions : List AdditionalServiceInfo := []
  services_callingpoints : List CallingPointsInfo := []
  null_basic_service : BasicServiceInfo := {}
  null_additional_service : AdditionalServiceInfo := {}
  number_of_services : Nat := 0
  service_List : List Nat := []
  ETDOrderedList : List Nat := []
deriving DecidableEq

/-! ## Reason codes (`loadReasonCodes`, `decodeDelayCode`, `decodeCancelCode`) -/

/-- `CreateNullServiceInfo`, Basic half: the fixed placeholder record
returned for the "no service" sentinel index. -/
def nullBasicService : BasicServiceInfo :=
  { trainid := "9999"
    destination := "Nowhere"
    scheduledDepartureTime := "99:99"
    estimatedDepartureTime := "99:99"
    operator_name := "Nobody"
    coaches := ""
    isCancelled := false
    isDelayed := false
    cancelReason := "Null Service - Cancellation Reason"
    delayReason := "Null Service - Delay Reason"
    apiDataVersion := 0
    static_data_available := true }

/-- `CreateNullServiceInfo`, Additional half. -/
def nullAdditionalService : AdditionalServiceInfo :=
  { trainid := "9999"
    apiDataVersion := 0
    static_data_available := true
    origin := "Nowhere"
    loading_type := "999"
    loadingPercentage := 99
    platformIsHidden := false
    serviceIsSupressed := false
    isPassengerService := true }

/-- One iteration of the `loadReasonCodes` loop: record the reason texts
(absent/null/empty `lateReason`/`cancReason` default to `"No Reason"`),
then store `reason_codes[code] = reason_codes.size()` and push the record
onto the new reason vector. -/
def loadReasonCodesStep (acc : List (String × Nat) × List DelayCancelReason)
    (r : ReasonJson) : List (String × Nat) × List DelayCancelReason :=
  let codeStr := toString r.code
  let reason : DelayCancelReason :=
    { code := codeStr
      delayReason := extractJSONvalueStr r.lateReason "No Reason"
      cancelReason := extractJSONvalueStr r.cancReason "No Reason" }
  (umapInsert acc.1 codeStr (umapSize acc.1), acc.2 ++ [reason])

/-- `TrainServiceParser::loadReasonCodes`, applied to the parsed
reason-code feed: fills `reason_codes` (the member map, inserted into
directly) and swaps in the new reason vector, sets `refdata_loaded`, and
creates the null service records. -/
def loadReasonCodes (st : ParserState) (refdata : List ReasonJson) : ParserState :=
  let acc := refdata.foldl loadReasonCodesStep (st.reason_codes, [])
  { st with
    reason_codes := acc.1
    delay_cancel_reasons := acc.2
    refdata_loaded := true
    null_basic_service := nullBasicService
    null_additional_service := nullAdditionalService }

/-- `TrainServiceParser::decodeDelayCode`: look the code's decimal string
up in `reason_codes`; a hit indexes `delay_cancel_reasons`, a miss yields
the empty string. -/
def decodeDelayCode (st : ParserState) (delay_code : Nat) : String :=
  match umapFind st.reason_codes (toString delay_code) with
  | some extract => (st.delay_cancel_reasons.getD extract {}).delayReason
  | none => ""

/-- `TrainServiceParser::decodeCancelCode`. -/
def decodeCancelCode (st : ParserState) (delay_code : Nat) : String :=
  match umapFind st.reason_codes (toString delay_code) with
  | some extract => (st.delay_cancel_reasons.getD extract {}).cancelReason
  | none => ""

/-! ## Ordering (`orderTheDepartureList`) -/

/-- The comparator lambda of `orderTheDepartureList`'s `std::sort` call,
over the `time_list` of per-service departure times: two `INVALID_TIME`
entries compare by original index, an `INVALID_TIME` entry sorts after
every valid entry, and two valid entries compare by time.  Out-of-range
reads default to `INVALID_TIME`, the value the C++ `time_list` vector's
value-initialized tail holds (the sort only ever compares indices below
the service count). -/
def effDepLt (tl : List Int) (a b : Nat) : Bool :=
  let time_a := tl.getD a INVALID_TIME
  let time_b := tl.getD b INVALID_TIME
  if time_a = INVALID_TIME ∧ time_b = INVALID_TIME then decide (a < b)
  else if time_a = INVALID_TIME then false
  else if time_b = INVALID_TIME then true
  else decide (time_a < time_b)

/-- The non-strict order induced by the comparator (`a` may stay before
`b` exactly when the comparator does not demand `b` before `a`).  A
`std::sort` result is precisely a permutation that is pairwise ordered by
this relation. -/
def effDepLe (tl : List Int) (a b : Nat) : Prop := effDepLt tl b a = false

instance effDepLeDec (tl : List Int) : DecidableRel (effDepLe tl) :=
  fun a b => inferInstanceAs (Decidable (effDepLt tl b a = false))

/-- The sorted index prefix produced by `orderTheDepartureList`: the
indices `0..n-1` ordered by the comparator.  `List.insertionSort` is one
admissible `std::sort` execution; every property proved about the
ordering below uses only that the result is a permutation pairwise
ordered by `effDepLe`, which holds of every `std::sort` execution with
this comparator. -/
def orderedDepartures (tl : List Int) (n : Nat) : List Nat :=
  List.insertionSort (effDepLe tl) (List.range n)

/-- `orderTheDepartureList`'s effect on `ETDOrderedList`: the vector
(sized to the configured maximum) is filled with the sentinel 999 and its
first `number_of_services` slots receive the sorted indices. -/
def orderTheDepartureListFn (seq : List ServiceSequence) (n : Nat) (maxsz : Nat) : List Nat :=
  orderedDepartures (seq.map (fun s => s.departure_time)) n ++ List.replicate (maxsz - n) 999

/-! ## Snapshot ingestion (`prefetchCache` and helpers) -/

/-- The extracted train identifier of a service object
(`extractJSONvalue<std::string>(svc, "trainid", "")`). -/
def svcTrainid (svc : ServiceJson) : String := extractJSONvalueStr svc.trainid ""

/-- One `ServiceSequence` entry of the prefetch loop: a service without
`stdSpecified` is arrival-only (all times `INVALID_TIME`); otherwise the
scheduled time is parsed (defaulting to `now`), and the effective
departure time is the estimated time when `etdSpecified`, else the
scheduled time.  Platform, train id and version are set in both cases. -/
def buildSequenceEntry (parseTime : String → Option Int) (now : Int) (api_version : Int)
    (svc : ServiceJson) : ServiceSequence :=
  let base : ServiceSequence :=
    if extractJSONvalueBool svc.stdSpecified false then
      let stdT := extractJSONTime parseTime svc.std now
      let etdSpec := extractJSONvalueBool svc.etdSpecified false
      if etdSpec then
        let etdT := extractJSONTime parseTime svc.etd now
        { std_specified := true, std := stdT, etd_specified := true, etd := etdT
          departure_time := etdT }
      else
        { std_specified := true, std := stdT, etd_specified := false, etd := 0
          departure_time := stdT }
    else
      { std_specified := false, std := INVALID_TIME, etd_specified := false
        etd := INVALID_TIME, departure_time := INVALID_TIME }
  { base with
    platform := extractJSONvalueStr svc.platform ""
    trainid := svcTrainid svc
    api_version := api_version }

/-- The identity-migration step of the prefetch loop for one new service
with train identifier `tid`: if `tid` is in the previous snapshot's
`cached_trainIDs` map, the Basic and Additional tiers are copied from the
old index verbatim and the CallingPoints tier is copied with its two
cached flags forced to `false`; otherwise all three tiers are the freshly
value-initialized records with their availability/cached flags `false`
and the train id stored. -/
def migrateTiers (st : ParserState) (tid : String) :
    BasicServiceInfo × AdditionalServiceInfo × CallingPointsInfo :=
  match umapFind st.cached_trainIDs tid with
  | some extract =>
    (st.services_basic.getD extract {},
     st.services_additions.getD extract {},
     { st.services_callingpoints.getD extract {} with
        callingPointsCached := false
        service_location_cached := false })
  | none =>
    ({ static_data_available := false, trainid := tid },
     { static_data_available := false, trainid := tid },
     { callingPointsCached := false, service_location_cached := false, trainid := tid })

/-- The service count of a snapshot: the `trainServices` array length
(0 when absent/null), clamped to the configured maximum. -/
def prefetchN (st : ParserState) (snap : Snapshot) : Nat :=
  min (snap.trainServices.getD []).length st.max_json_size

/-- The train identifiers of a snapshot's first `n` services, in order. -/
def snapTrainIds (snap : Snapshot) (n : Nat) : List String :=
  (List.range n).map (fun i => svcTrainid ((snap.trainServices.getD []).getD i {}))

/-- The NRCC fragment contributed by one message object: nothing when
`xhtmlMessage` is absent/null, else the in-place-sanitized text with a
leading `'\n'` (if any) erased. -/
def nrccPiece (m : Option String) : String :=
  match m with
  | none => ""
  | some msg =>
    let p := processHtmlTagsInPlace msg
    if p ≠ "" ∧ p.toList.getD 0 ' ' = '\n' then String.mk (p.toList.drop 1) else p

/-- The combined NRCC message: pieces joined with `" | "` between
consecutive array positions (the separator is emitted for every position
after the first, whether or not that position contributes text). -/
def buildNrcc (msgs : List (Option String)) : String :=
  (List.range msgs.length).foldl
    (fun acc i =>
      (if 0 < i then acc ++ " | " else acc) ++ nrccPiece (msgs.getD i none)) ""

/-- `TrainServiceParser::prefetchMetaData`: sets `number_of_services`
(clamped), fills `location_name` once (first snapshot that provides a
non-empty one), and rebuilds `NRCC_message` (cleared when the
`nrccMessages` array is absent or empty). -/
def prefetchMetaData (st : ParserState) (new_data : Snapshot) : ParserState :=
  let loc :=
    if st.location_name = "" then
      match new_data.locationName with
      | none => ""
      | some s => s
    else st.location_name
  let nrcc :=
    match new_data.nrccMessages with
    | none => ""
    | some msgs => if msgs.isEmpty then "" else buildNrcc msgs
  { st with
    number_of_services := prefetchN st new_data
    location_name := loc
    NRCC_message := nrcc }

/-- The train-id map rebuild of the prefetch loop: for each new service
in order, `new_cached_trainIDs[trainid] = new_cached_trainIDs.size()`
(the size taken before the insertion, so with distinct identifiers entry
`i` maps to index `i`). -/
def buildTrainIdMap (ids : List String) (m0 : List (String × Nat)) : List (String × Nat) :=
  ids.foldl (fun m k => umapInsert m k (umapSize m)) m0

/-- The successful path of `prefetchCache` after `json::parse` succeeds:
extract the metadata, build the new sequence entries and migrate the
three tier vectors (all sized to the configured maximum, the tail beyond
the service count value-initialized), rebuild the train-id map
(`new_cached_trainIDs[trainid] = size-before-insert`), publish everything
together with the caller's version stamp, recompute `ETDOrderedList`, and
void `service_List` to the sentinel 999. -/
def prefetchResult (parseTime : String → Option Int) (now : Int) (st : ParserState)
    (new_data : Snapshot) (api_version : Int) : ParserState :=
  let st1 := prefetchMetaData st new_data
  let n := prefetchN st new_data
  let svcs := new_data.trainServices.getD []
  let seqList := (List.range n).map
    (fun i => buildSequenceEntry parseTime now api_version (svcs.getD i ({} : ServiceJson)))
  let tiers : List (BasicServiceInfo × AdditionalServiceInfo × CallingPointsInfo) :=
    (List.range n).map
      (fun i => migrateTiers st (svcTrainid (svcs.getD i ({} : ServiceJson))))
  let pad := st.max_json_size - n
  let newMap := buildTrainIdMap (seqList.map (fun e => e.trainid)) []
  let st2 := { st1 with
    data := new_data
    services_basic :=
      tiers.map (fun (t : BasicServiceInfo × AdditionalServiceInfo × CallingPointsInfo) => t.1)
        ++ List.replicate pad ({} : BasicServiceInfo)
    services_additions :=
      tiers.map (fun (t : BasicServiceInfo × AdditionalServiceInfo × CallingPointsInfo) => t.2.1)
        ++ List.replicate pad ({} : AdditionalServiceInfo)
    services_callingpoints :=
      tiers.map (fun (t : BasicServiceInfo × AdditionalServiceInfo × CallingPointsInfo) => t.2.2)
        ++ List.replicate pad ({} : CallingPointsInfo)
    services_sequence := seqList ++ List.replicate pad ({} : ServiceSequence)
    cached_trainIDs := newMap
    api_data_version := api_version }
  let st3 := { st2 with
    ETDOrderedList :=
      orderTheDepartureListFn st2.services_sequence st2.number_of_services st2.max_json_size }
  { st3 with service_List := List.replicate st3.service_List.length 999 }

/-- `TrainServiceParser::prefetchCache`.  The reference-data guard throws
(`std::out_of_range`, not caught by the `parse_error` handler) before the
parse; a `json::parse_error` is rethrown as a `runtime_error`; in either
case the member state is untouched (every write in the body happens after
a successful parse).  `parse` stands for `nlohmann::json::parse`,
`parseTime` for `std::get_time`/`mktime`, `now` for `std::time(nullptr)`.
Returns the thrown exception (if any) together with the state of the
object when control leaves the method. -/
def prefetchCache (parse : String → Option Snapshot) (parseTime : String → Option Int)
    (now : Int) (st : ParserState) (jsonString : String) (api_version : Int) :
    Option ParserError × ParserState :=
  if st.refdata_loaded = false then
    (some (.outOfRange "Reference Data not loaded - fatal error!"), st)
  else
    match parse jsonString with
    | none => (some (.runtimeError "Failed to parse JSON in cache pre-fetch"), st)
    | some new_data => (none, prefetchResult parseTime now st new_data api_version)

/-! ## Tier hydration and accessors

A caveat shared by both hydration routines: the C++ local
`new_*_item` is default-initialized, which leaves its scalar members
(version stamp, flags) indeterminate until assigned; the model
value-initializes them (stamp 0, flags false), which is the behaviour the
surrounding code relies on (a fresh stamp differing from the published
version so the dynamic subset is computed). -/

/-- The dynamic-subset update block of `hydrateBasicDataCacheInternal`
(source lines 572-616), run when the item's stamp disagrees with the
published version: re-extract the cancellation state, decode the reason
codes, compute the estimated-time display string (`"On Time"` when a
specified estimate textually equals the stored scheduled-time display;
`"Cancelled"`/`"On Time"` when no estimate is specified), and apply the
`departureType == "Delayed"` rule (set the delayed flag, and override the
display to `"Delayed"` only when no estimate is specified), then stamp
the item with the published version. -/
def updateBasicDynamic (st : ParserState) (svc : ServiceJson) (etd_specified : Bool)
    (item : BasicServiceInfo) : BasicServiceInfo :=
  if item.apiDataVersion ≠ st.api_data_version then
    let isCancelled := extractJSONvalueBool svc.isCancelled false
    let cancelReason := decodeCancelCode st (extractReasonValue svc.cancelReasonValue)
    let delayReason := decodeDelayCode st (extractReasonValue svc.delayReasonValue)
    let adhocAlerts := extractJSONvalueStr svc.adhocAlerts ""
    let etdDisplay :=
      if etd_specified then
        let e := extractJSONTimeString svc.etd ""
        if e = item.scheduledDepartureTime then "On Time" else e
      else if isCancelled then "Cancelled" else "On Time"
    let delayed := extractJSONvalueStr svc.departureType "" = "Delayed"
    let etdDisplay2 := if delayed ∧ etd_specified = false then "Delayed" else etdDisplay
    { item with
      isCancelled := isCancelled
      cancelReason := cancelReason
      delayReason := delayReason
      adhocAlerts := adhocAlerts
      estimatedDepartureTime := etdDisplay2
      isDelayed := decide delayed
      apiDataVersion := st.api_data_version }
  else item

/-- `hydrateBasicDataCacheInternal`: check the tier's train id against
the sequence's (mismatch is fatal to the call), bounds-check the index,
reuse or compute the static subset (computing it also marks the
Additional tier's static data stale), run the dynamic update, and store
the item back. -/
def hydrateBasicDataCacheInternal (st : ParserState) (service_index : Nat) :
    Option ParserError × ParserState :=
  let ID := (st.services_sequence.getD service_index ({} : ServiceSequence)).trainid
  let svc := (st.data.trainServices.getD []).getD service_index ({} : ServiceJson)
  let tid := svcTrainid svc
  if tid ≠ ID then (some (.outOfRange "Unexpected Service ID"), st)
  else if st.max_json_size ≤ service_index then
    (some (.outOfRange "Service index exceeds maximum size"), st)
  else if st.number_of_services ≤ service_index then
    (some (.outOfRange "Service index exceeds current service count"), st)
  else
    let cached := st.services_basic.getD service_index ({} : BasicServiceInfo)
    let stepped :=
      if cached.static_data_available then (st, cached)
      else
        let st' := { st with
          services_additions := st.services_additions.set service_index
            { st.services_additions.getD service_index ({} : AdditionalServiceInfo) with
                static_data_available := false } }
        let coachesExtract := extractJSONvalueNat svc.length 0
        let b : BasicServiceInfo :=
          { trainid := tid
            scheduledDepartureTime := extractJSONTimeString svc.std ""
            destination := extractNestedJSONvalueStr svc.destination 0 ""
            operator_name := extractJSONvalueStr svc.operatorName ""
            coaches := if coachesExtract ≠ 0 then toString coachesExtract else ""
            static_data_available := true }
        (st', b)
    let b2 := updateBasicDynamic stepped.1 svc
      (st.services_sequence.getD service_index ({} : ServiceSequence)).etd_specified stepped.2
    (none, { stepped.1 with services_basic := stepped.1.services_basic.set service_index b2 })

/-- `hydrateAdditionalDataCacheInternal`: the Additional tier's analogue
(static subset: origin, loading category/percentage, suppressed and
passenger-service flags; dynamic subset: the platform-hidden flag). -/
def hydrateAdditionalDataCacheInternal (st : ParserState) (service_index : Nat) :
    Option ParserError × ParserState :=
  let ID := (st.services_sequence.getD service_index ({} : ServiceSequence)).trainid
  let svc := (st.data.trainServices.getD []).getD service_index ({} : ServiceJson)
  let tid := svcTrainid svc
  if tid ≠ ID then (some (.outOfRange "Unexpected Service ID"), st)
  else if st.max_json_size ≤ service_index then
    (some (.outOfRange "Service index exceeds maximum size"), st)
  else if st.number_of_services ≤ service_index then
    (some (.outOfRange "Service index exceeds current service count"), st)
  else
    let cached := st.services_additions.getD service_index ({} : AdditionalServiceInfo)
    let base :=
      if cached.static_data_available then cached
      else
        { trainid := tid
          static_data_available := true
          origin := extractNestedJSONvalueStr svc.origin 0 ""
          loading_type := extractJSONvalueStr svc.loadingType ""
          loadingPercentage := extractJSONvalueNat svc.loadingValue 0
          serviceIsSupressed := extractJSONvalueBool svc.serviceIsSupressed false
          isPassengerService := extractJSONvalueBool svc.isPassengerService false }
    let b2 :=
      if base.apiDataVersion ≠ st.api_data_version then
        { base with
          platformIsHidden := extractJSONvalueBool svc.platformIsHidden false
          apiDataVersion := st.api_data_version }
      else base
    (none, { st with services_additions := st.services_additions.set service_index b2 })

/-- `getBasicServiceInfo`: the sentinel index 999 returns the null
record without touching the cache; an index at or beyond the service
count fails with an out-of-range error; otherwise the Basic tier is
(re)hydrated on a version mismatch or missing static data and the stored
record is returned.  The pair carries the possibly-updated object
state. -/
def getBasicServiceInfo (st : ParserState) (service_index : Nat) :
    Except ParserError (BasicServiceInfo × ParserState) :=
  if service_index = 999 then .ok (st.null_basic_service, st)
  else if st.number_of_services ≤ service_index then
    .error (.outOfRange "Service index out of range")
  else
    let cached := st.services_basic.getD service_index ({} : BasicServiceInfo)
    if cached.apiDataVersion ≠ st.api_data_version ∨ cached.static_data_available = false then
      match hydrateBasicDataCacheInternal st service_index with
      | (some e, _) => .error e
      | (none, st') =>
        .ok (st'.services_basic.getD service_index ({} : BasicServiceInfo), st')
    else .ok (cached, st)

/-- `getAdditionalServiceInfo` (hydration triggered by a version mismatch
alone). -/
def getAdditionalServiceInfo (st : ParserState) (service_index : Nat) :
    Except ParserError (AdditionalServiceInfo × ParserState) :=
  if service_index = 999 then .ok (st.null_additional_service, st)
  else if st.number_of_services ≤ service_index then
    .error (.outOfRange "Service index out of range")
  else
    let cached := st.services_additions.getD service_index ({} : AdditionalServiceInfo)
    if cached.apiDataVersion ≠ st.api_data_version then
      match hydrateAdditionalDataCacheInternal st service_index with
      | (some e, _) => .error e
      | (none, st') =>
        .ok (st'.services_additions.getD service_index ({} : AdditionalServiceInfo), st')
    else .ok (cached, st)

/-! ## Departure selection (`hydrateDepartureCache`) and ordinal accessors -/

/-- The platform-filtered selection loop: walk the ordered list, and for
each service on the selected platform store its index (or 999 for an
arrival-only record) in the next free `service_List` slot, stopping once
the slot count is exhausted. -/
def selectPlatformLoop (st : ParserState) : List Nat :=
  ((List.range st.number_of_services).foldl
    (fun (acc : Nat × List Nat) i =>
      if acc.1 < acc.2.length then
        let index := st.ETDOrderedList.getD i 999
        if (st.services_sequence.getD index ({} : ServiceSequence)).platform
            = st.selected_platform then
          (acc.1 + 1,
           acc.2.set acc.1
             (if (st.services_sequence.getD index ({} : ServiceSequence)).std = INVALID_TIME
              then 999 else index))
        else acc
      else acc)
    (0, st.service_List)).2

/-- The all-platforms selection loop: copy the first
`number_of_departures` ordered indices into `service_List`, skipping
sentinel entries and arrival-only records. -/
def selectAllPlatformsLoop (st : ParserState) : List Nat :=
  (List.range st.number_of_departures).foldl
    (fun sl i =>
      if i < st.number_of_services then
        let e := st.ETDOrderedList.getD i 999
        if e = 999 then sl
        else if (st.services_sequence.getD e ({} : ServiceSequence)).std = INVALID_TIME then sl
        else sl.set i e
      else sl)
    st.service_List

/-- The Basic-tier hydration pass over the selected departures: hydrate
each non-sentinel `service_List` entry; a thrown `std::out_of_range` or
`std::runtime_error` propagates (the surrounding handler only catches
`json::exception`). -/
def hydrateSelectedDepartures (st : ParserState) : Option ParserError × ParserState :=
  (List.range st.number_of_departures).foldl
    (fun (acc : Option ParserError × ParserState) i =>
      match acc.1 with
      | some _ => acc
      | none =>
        let index := acc.2.service_List.getD i 999
        if index ≠ 999 then hydrateBasicDataCacheInternal acc.2 index else acc)
    (none, st)

/-- `TrainServiceParser::hydrateDepartureCache`: nothing to do when the
snapshot holds no services; otherwise rebuild `service_List` (for the
selected platform or for all platforms) and hydrate the Basic tier of
each selected departure. -/
def hydrateDepartureCache (st : ParserState) : Option ParserError × ParserState :=
  if st.number_of_services = 0 then (none, st)
  else
    let sl := if st.selectPlatform then selectPlatformLoop st else selectAllPlatformsLoop st
    hydrateSelectedDepartures { st with service_List := sl }

/-- `TrainServiceParser::updateCache`: prefetch then hydrate; an
exception thrown by the prefetch propagates before the hydration runs. -/
def updateCache (parse : String → Option Snapshot) (parseTime : String → Option Int)
    (now : Int) (st : ParserState) (jsonString : String) (api_version : Int) :
    Option ParserError × ParserState :=
  match prefetchCache parse parseTime now st jsonString api_version with
  | (some e, st') => (some e, st')
  | (none, st') => hydrateDepartureCache st'

/-- The `safe_at` helper: bounds-checked element access with a default. -/
def safe_at (l : List Nat) (index : Nat) (default_val : Nat) : Nat :=
  if index < l.length then l.getD index default_val else default_val

/-- `TrainServiceParser::getOrdinalDeparture`: ordinal 0 or an ordinal
beyond the configured departure count is an out-of-range error, as is a
`service_List` shorter than the ordinal (never the case for a correctly
constructed object); otherwise the `service_number - 1`-th selected
index (possibly the sentinel 999) is returned. -/
def getOrdinalDeparture (st : ParserState) (service_number : Nat) : Except ParserError Nat :=
  if service_number = 0 ∨ st.number_of_departures < service_number then
    .error (.outOfRange "Ordinal service number out of range")
  else if st.service_List.length ≤ service_number - 1 then
    .error (.outOfRange "Service list index out of range")
  else .ok (safe_at st.service_List (service_number - 1) 999)

/-- `TrainServiceParser::getFirstDeparture`. -/
def getFirstDeparture (st : ParserState) : Nat := safe_at st.service_List 0 999

/-! ## Concrete sample data (used by the closed evaluation theorems) -/

/-- A one-service snapshot: train `T1`, scheduled departure specified. -/
def sampleSnap : Snapshot :=
  { trainServices := some
      [{ stdSpecified := some true
         std := some "2025-01-01T10:00:00"
         trainid := some "T1"
         platform := some "2"
         destination := some [some "Endtown"] }]
    locationName := some "Testville" }

/-- A follow-up snapshot: a new train `T2` first, then `T1` moved to
index 1. -/
def sampleSnap2 : Snapshot :=
  { trainServices := some
      [{ stdSpecified := some true
         std := some "2025-01-01T09:30:00"
         trainid := some "T2"
         platform := some "1" },
       { stdSpecified := some true
         std := some "2025-01-01T10:00:00"
         etdSpecified := some true
         etd := some "2025-01-01T10:07:00"
         trainid := some "T1"
         platform := some "2" }]
    locationName := some "Testville" }

/-- A snapshot with zero services. -/
def emptySnap : Snapshot :=
  { trainServices := some [], locationName := some "Testville" }

/-- A sample `json::parse` returning one of the snapshots above by source
text. -/
def sampleParse : String → Option Snapshot := fun s =>
  if s = "empty" then some emptySnap
  else if s = "snap2" then some sampleSnap2
  else some sampleSnap

/-- A sample timestamp parse (`std::get_time`/`mktime`) mapping the two
distinct sample timestamps to distinct `time_t` values. -/
def sampleParseTime : String → Option Int := fun s =>
  if s = "2025-01-01T09:30:00" then some 3400
  else if s = "2025-01-01T10:07:00" then some 3607
  else some 3600

/-- A freshly constructed parser whose reference data has been loaded and
that has already published a snapshot with version 5. -/
def sampleState : ParserState :=
  { refdata_loaded := true
    api_data_version := 5
    services_sequence := List.replicate 10 {}
    services_basic := List.replicate 10 {}
    services_additions := List.replicate 10 {}
    services_callingpoints := List.replicate 10 {}
    null_basic_service := nullBasicService
    null_additional_service := nullAdditionalService
    number_of_services := 0
    service_List := List.replicate 3 999
    ETDOrderedList := List.replicate 10 999 }

/-- A sample reason-code feed: code 100 with delay text only, code 101
with an *empty* cancellation text, code 102 with neither. -/
def sampleReasons : List ReasonJson :=
  [{ code := 100, lateReason := some "Late running crew" },
   { code := 101, cancReason := some "" },
   { code := 102 }]

/-! ## Helper lemmas -/

theorem getD_replicate {α : Type} (n i : Nat) (x d : α) :
    (List.replicate n x).getD i d = if i < n then x else d := by
  by_cases h : i < n <;> simp [List.getD, List.getElem?_replicate, h]

/-- The fields of the published state after a successful prefetch that
are read back by the accessor claims. -/
theorem prefetchResult_fields (parseTime : String → Option Int) (now : Int)
    (st : ParserState) (new_data : Snapshot) (v : Int) :
    (prefetchResult parseTime now st new_data v).api_data_version = v ∧
    (prefetchResult parseTime now st new_data v).number_of_services = prefetchN st new_data ∧
    (prefetchResult parseTime now st new_data v).number_of_departures
      = st.number_of_departures ∧
    (prefetchResult parseTime now st new_data v).max_json_size = st.max_json_size ∧
    (prefetchResult parseTime now st new_data v).service_List
      = List.replicate st.service_List.length 999 ∧
    (prefetchResult parseTime now st new_data v).refdata_loaded = st.refdata_loaded ∧
    (prefetchResult parseTime now st new_data v).selectPlatform = st.selectPlatform :=
  ⟨rfl, rfl, rfl, rfl, rfl, rfl, rfl⟩

theorem prefetchCache_success (parse : String → Option Snapshot)
    (parseTime : String → Option Int) (now : Int) (st : ParserState) (s : String) (v : Int)
    (snap : Snapshot) (hl : st.refdata_loaded = true) (hp : parse s = some snap) :
    prefetchCache parse parseTime now st s v = (none, prefetchResult parseTime now st snap v) := by
  simp [prefetchCache, hl, hp]

/-! ## C5 — malformed top-level JSON fails the whole ingestion atomically -/

/-- C5: for every ingestion call whose raw JSON string does not parse,
`prefetchCache` (and hence `updateCache`) surfaces an error to the caller
and leaves the entire published state exactly as it was before the
call. -/
theorem parse_failure_is_atomic (parse : String → Option Snapshot)
    (parseTime : String → Option Int) (now : Int) (st : ParserState) (s : String) (v : Int)
    (hp : parse s = none) :
    ((prefetchCache parse parseTime now st s v).1.isSome = true ∧
      (prefetchCache parse parseTime now st s v).2 = st) ∧
    ((updateCache parse parseTime now st s v).1.isSome = true ∧
      (updateCache parse parseTime now st s v).2 = st) := by
  by_cases h : st.refdata_loaded = false <;>
    simp [updateCache, prefetchCache, hp, h]

/-- C5 witness: a concrete failing parse on the concrete sample state. -/
theorem parse_failure_is_atomic_witness :
    ((prefetchCache (fun _ => none) sampleParseTime 0 sampleState "x" 7).1.isSome = true ∧
      (prefetchCache (fun _ => none) sampleParseTime 0 sampleState "x" 7).2 = sampleState) ∧
    ((updateCache (fun _ => none) sampleParseTime 0 sampleState "x" 7).1.isSome = true ∧
      (updateCache (fun _ => none) sampleParseTime 0 sampleState "x" 7).2 = sampleState) :=
  parse_failure_is_atomic (fun _ => none) sampleParseTime 0 sampleState "x" 7 rfl

/-! ## C1 — version monotonicity at the ingestion boundary

The claim asserts that an ingestion whose version is at or below the
published one is rejected with the published state unchanged.  Neither
`updateCache` nor `prefetchCache` compares the caller's version with
`api_data_version` anywhere: the snapshot is published and the version
stamp overwritten unconditionally.  The counterexample re-ingests at the
already-published version 5 and observes success plus a changed state. -/

/-- C1 counterexample: ingesting with a version equal to the published
version (5) is *not* rejected — the call succeeds and the published
state (raw data, sequence, tiers, identity map, ordering) changes. -/
theorem version_regression_not_rejected :
    (prefetchCache sampleParse sampleParseTime 3600 sampleState "body" 5).1 = none ∧
    (prefetchCache sampleParse sampleParseTime 3600 sampleState "body" 5).2 ≠ sampleState ∧
    (updateCache sampleParse sampleParseTime 3600 sampleState "body" 5).1 = none ∧
    (updateCache sampleParse sampleParseTime 3600 sampleState "body" 5).2.api_data_version
      = 5 := by
  refine ⟨rfl, ?_, rfl, rfl⟩
  decide

/-- C1 amended: ingestion performs no version check at all — with the
reference data loaded and a parsable snapshot, `prefetchCache` accepts
*any* caller-supplied version, including one lower than or equal to the
currently published version, publishes the new snapshot and overwrites
the version stamp with the supplied value. -/
theorem ingestion_accepts_any_version (parse : String → Option Snapshot)
    (parseTime : String → Option Int) (now : Int) (st : ParserState) (s : String) (v : Int)
    (snap : Snapshot) (hl : st.refdata_loaded = true) (hp : parse s = some snap) :
    (prefetchCache parse parseTime now st s v).1 = none ∧
    (prefetchCache parse parseTime now st s v).2 = prefetchResult parseTime now st snap v ∧
    (prefetchCache parse parseTime now st s v).2.api_data_version = v := by
  rw [prefetchCache_success parse parseTime now st s v snap hl hp]
  exact ⟨rfl, rfl, (prefetchResult_fields parseTime now st snap v).1⟩

/-- C1 amended witness: the concrete re-ingestion at the published
version from the counterexample, accepted. -/
theorem ingestion_accepts_any_version_witness :
    (prefetchCache sampleParse sampleParseTime 3600 sampleState "body" 5).1 = none ∧
    (prefetchCache sampleParse sampleParseTime 3600 sampleState "body" 5).2
      = prefetchResult sampleParseTime 3600 sampleState sampleSnap 5 ∧
    (prefetchCache sampleParse sampleParseTime 3600 sampleState "body" 5).2.api_data_version
      = 5 :=
  ingestion_accepts_any_version sampleParse sampleParseTime 3600 sampleState "body" 5
    sampleSnap rfl rfl

/-! ## C4 — the estimated-time display rule of Basic-tier hydration -/

/-- C4: whenever the dynamic subset of the Basic tier is recomputed
(stamp mismatch): a specified estimated time whose display string equals
the stored scheduled-time display yields `"On Time"`; with no estimate
specified the display is `"Delayed"` when the feed's `departureType` is
`"Delayed"`, else `"Cancelled"` when the cancelled flag is set, else
`"On Time"`; and the delayed flag is set exactly when `departureType` is
`"Delayed"`. -/
theorem basic_dynamic_display_rule (st : ParserState) (svc : ServiceJson)
    (etd_specified : Bool) (item : BasicServiceInfo)
    (h : item.apiDataVersion ≠ st.api_data_version) :
    (etd_specified = true → extractJSONTimeString svc.etd "" = item.scheduledDepartureTime →
      (updateBasicDynamic st svc etd_specified item).estimatedDepartureTime = "On Time") ∧
    (etd_specified = false →
      (updateBasicDynamic st svc etd_specified item).estimatedDepartureTime =
        (if extractJSONvalueStr svc.departureType "" = "Delayed" then "Delayed"
         else if extractJSONvalueBool svc.isCancelled false = true then "Cancelled"
         else "On Time")) ∧
    (extractJSONvalueStr svc.departureType "" = "Delayed" →
      (updateBasicDynamic st svc etd_specified item).isDelayed = true) ∧
    (extractJSONvalueStr svc.departureType "" ≠ "Delayed" →
      (updateBasicDynamic st svc etd_specified item).isDelayed = false) := by
  constructor
  · intro he hq
    simp [updateBasicDynamic, h, he, hq]
  constructor
  · intro he
    by_cases hd : extractJSONvalueStr svc.departureType "" = "Delayed" <;>
      by_cases hc : extractJSONvalueBool svc.isCancelled false = true <;>
        simp [updateBasicDynamic, h, he, hd, hc]
  constructor
  · intro hd
    simp [updateBasicDynamic, h, hd]
  · intro hd
    simp [updateBasicDynamic, h, hd]

/-- C4 witness: a delayed service with no estimate, recomputed at stamp
0 against published version 5, displays `"Delayed"` with the delayed
flag set. -/
theorem basic_dynamic_display_rule_witness :
    (({} : BasicServiceInfo).apiDataVersion ≠ sampleState.api_data_version) ∧
    ((updateBasicDynamic sampleState
        { departureType := some "Delayed", isCancelled := some true }
        false ({} : BasicServiceInfo)).estimatedDepartureTime = "Delayed" ∧
     (updateBasicDynamic sampleState
        { departureType := some "Delayed", isCancelled := some true }
        false ({} : BasicServiceInfo)).isDelayed = true) := by
  refine ⟨by decide, ?_, ?_⟩
  · have h := basic_dynamic_display_rule sampleState
      { departureType := some "Delayed", isCancelled := some true } false
      ({} : BasicServiceInfo) (by decide)
    rw [h.2.1 rfl]
    decide
  · have h := basic_dynamic_display_rule sampleState
      { departureType := some "Delayed", isCancelled := some true } false
      ({} : BasicServiceInfo) (by decide)
    exact h.2.2.1 (by decide)

/-! ## C6 — sentinel index vs. out-of-range index in the tier accessors

The sentinel 999 returns the fixed null record without an error and the
out-of-range case is a distinct error, as claimed; but the null record is
not entirely free of blank fields: its `coaches` field is the empty
string (`CreateNullServiceInfo` sets `null_basic_service.coaches = ""`),
so the "never blank or ambiguous fields" part of the claim fails. -/

/-- C6 counterexample: the record returned for the sentinel index has a
blank `coaches` field. -/
theorem null_service_has_blank_coaches :
    getBasicServiceInfo sampleState 999 = .ok (nullBasicService, sampleState) ∧
    nullBasicService.coaches = "" := by
  exact ⟨rfl, rfl⟩

/-- C6 amended: for `getBasicServiceInfo` and `getAdditionalServiceInfo`,
the sentinel index returns the fixed null record — whose display fields
hold distinguishable placeholder values (`"9999"`, `"Nowhere"`,
`"99:99"`, `"Nobody"`), except the `coaches` field which is the empty
string — and raises no error; a non-sentinel index at or beyond the
current service count fails with an out-of-range error, distinct from
the sentinel case. -/
theorem service_accessor_sentinel_and_range (st : ParserState) (idx : Nat)
    (hb : st.null_basic_service = nullBasicService)
    (ha : st.null_additional_service = nullAdditionalService)
    (h999 : idx ≠ 999) (hge : st.number_of_services ≤ idx) :
    getBasicServiceInfo st 999 = .ok (nullBasicService, st) ∧
    nullBasicService.trainid = "9999" ∧
    nullBasicService.destination = "Nowhere" ∧
    nullBasicService.scheduledDepartureTime = "99:99" ∧
    nullBasicService.estimatedDepartureTime = "99:99" ∧
    nullBasicService.operator_name = "Nobody" ∧
    nullBasicService.coaches = "" ∧
    getAdditionalServiceInfo st 999 = .ok (nullAdditionalService, st) ∧
    nullAdditionalService.origin = "Nowhere" ∧
    getBasicServiceInfo st idx = .error (.outOfRange "Service index out of range") ∧
    getAdditionalServiceInfo st idx = .error (.outOfRange "Service index out of range") := by
  refine ⟨?_, rfl, rfl, rfl, rfl, rfl, rfl, ?_, rfl, ?_, ?_⟩
  · simp [getBasicServiceInfo, hb]
  · simp [getAdditionalServiceInfo, ha]
  · simp [getBasicServiceInfo, h999, hge]
  · simp [getAdditionalServiceInfo, h999, hge]

/-- C6 amended witness: the sample state with index 5 (no services
published, so 5 is out of range). -/
theorem service_accessor_sentinel_and_range_witness :
    getBasicServiceInfo sampleState 999 = .ok (nullBasicService, sampleState) ∧
    getBasicServiceInfo sampleState 5
      = .error (.outOfRange "Service index out of range") ∧
    getAdditionalServiceInfo sampleState 5
      = .error (.outOfRange "Service index out of range") := by
  have h := service_accessor_sentinel_and_range sampleState 5 rfl rfl
    (by decide) (by decide)
  exact ⟨h.1, h.2.2.2.2.2.2.2.2.2.1, h.2.2.2.2.2.2.2.2.2.2⟩

/-! ## C7 — the sanitizer's reference cases

The scalar sanitizer removes the `<`…`>` delimiters and the characters
*between* them, decodes the six-entry entity table, and strips
`'\n'`/`'\r'`; the text between a closing `>` and the next `<` is kept.
On the spec's reference input the text `bold` sits between `<b>` and
`</b>`, i.e. outside every delimiter pair, so the output is
`"A & B bold"`, not the claimed `"A & B "`. -/

/-- C7 counterexample: the first reference case evaluates to
`"A & B bold"`, not `"A & B "`. -/
theorem sanitize_reference_case_value :
    processHtmlTagsRegular "A &amp; B <b>bold</b>\n".toList ≠ "A & B ".toList ∧
    processHtmlTagsRegular "A &amp; B <b>bold</b>\n".toList = "A & B bold".toList := by
  constructor <;> decide

/-- C7 amended: `sanitize("A &amp; B <b>bold</b>\n")` returns
`"A & B bold"` (the characters between `<` and `>` are discarded with the
delimiters; text between tags is kept); empty input is a no-op; each of
the six table entities decodes to its single character; newline and
carriage-return characters are stripped. -/
theorem sanitize_reference_cases :
    processHtmlTagsRegular "A &amp; B <b>bold</b>\n".toList = "A & B bold".toList ∧
    processHtmlTagsRegular "".toList = "".toList ∧
    processHtmlTagsRegular "<b>bold</b>".toList = "bold".toList ∧
    processHtmlTagsRegular "&quot;".toList = ['"'] ∧
    processHtmlTagsRegular "&amp;".toList = ['&'] ∧
    processHtmlTagsRegular "&lt;".toList = ['<'] ∧
    processHtmlTagsRegular "&gt;".toList = ['>'] ∧
    processHtmlTagsRegular "&#39;".toList = ['\''] ∧
    processHtmlTagsRegular "&nbsp;".toList = [' '] ∧
    processHtmlTagsRegular "a\nb\rc".toList = "abc".toList ∧
    processHtmlTagsInPlace "" = "" := by
  refine ⟨?_, ?_, ?_, ?_, ?_, ?_, ?_, ?_, ?_, ?_, ?_⟩ <;> decide

/-! ## C8 — scalar/NEON equivalence of the sanitizer

The inner byte loop of `processHtmlTagsNEON` consumes an entity by
advancing its chunk-local index `j`, but the chunk loop then advances the
global index by exactly 16; when the entity crosses the 16-byte chunk
boundary, the entity's characters beyond the boundary are processed a
second time by the following chunk (here: the tail loop), which emits the
entity's trailing `';'` again.  The scalar reference consumes the entity
exactly once.  The two implementations therefore disagree, although the
code selects between them by input length/platform alone and its spec
permits the vectorized path only if it is bit-for-bit equivalent. -/

/-- C8: on the 17-character input whose `&amp;` starts at offset 12 and
crosses the first 16-byte chunk boundary, the NEON implementation emits
an extra `';'` and differs from the scalar reference implementation. -/
theorem neon_diverges_from_scalar :
    processHtmlTagsRegular "aaaaaaaaaaaa&amp;".toList = "aaaaaaaaaaaa&".toList ∧
    processHtmlTagsNEON "aaaaaaaaaaaa&amp;".toList = "aaaaaaaaaaaa&;".toList ∧
    processHtmlTagsNEON "aaaaaaaaaaaa&amp;".toList
      ≠ processHtmlTagsRegular "aaaaaaaaaaaa&amp;".toList := by
  refine ⟨?_, ?_, ?_⟩ <;> decide

/-! ## C9 — ordinal departure accessors -/

theorem safe_at_replicate (m i : Nat) : safe_at (List.replicate m 999) i 999 = 999 := by
  by_cases h : i < m <;> simp [safe_at, getD_replicate, h]

/-- C9: for a correctly constructed parser (`service_List` sized to the
configured departure count, which is at least one),
`getOrdinalDeparture 1` returns exactly `getFirstDeparture`'s value;
ordinal 0 and every ordinal above the configured departure count fail
with a range error; and after ingesting a snapshot containing zero
services, every valid ordinal position returns the "no service" sentinel
999. -/
theorem ordinal_departure_spec (st : ParserState)
    (hlen : st.service_List.length = st.number_of_departures)
    (hpos : 1 ≤ st.number_of_departures) :
    getOrdinalDeparture st 1 = .ok (getFirstDeparture st) ∧
    (∀ n, n = 0 ∨ st.number_of_departures < n →
      getOrdinalDeparture st n = .error (.outOfRange "Ordinal service number out of range")) ∧
    (∀ (parse : String → Option Snapshot) (parseTime : String → Option Int) (now : Int)
        (s : String) (v : Int) (snap : Snapshot),
      parse s = some snap → st.refdata_loaded = true →
      (snap.trainServices.getD []).length = 0 →
      ∀ n, 1 ≤ n → n ≤ st.number_of_departures →
        getOrdinalDeparture (updateCache parse parseTime now st s v).2 n = .ok 999) := by
  refine ⟨?_, ?_, ?_⟩
  · have h1 : ¬ (1 = 0 ∨ st.number_of_departures < 1) := by omega
    have h2 : ¬ (st.service_List.length ≤ 1 - 1) := by omega
    unfold getOrdinalDeparture getFirstDeparture
    rw [if_neg h1, if_neg h2]
  · intro n hn
    simp [getOrdinalDeparture, hn]
  · intro parse parseTime now s v snap hp hl h0 n hn1 hn2
    have hpre := prefetchCache_success parse parseTime now st s v snap hl hp
    have hzero : prefetchN st snap = 0 := by
      simp [prefetchN, h0]
    have hserv : (prefetchResult parseTime now st snap v).number_of_services = 0 := by
      rw [(prefetchResult_fields parseTime now st snap v).2.1, hzero]
    have hupd : (updateCache parse parseTime now st s v).2
        = prefetchResult parseTime now st snap v := by
      simp [updateCache, hpre, hydrateDepartureCache, hserv]
    rw [hupd]
    obtain ⟨-, -, hnd, -, hsl, -, -⟩ := prefetchResult_fields parseTime now st snap v
    have h1 : ¬ (n = 0 ∨ (prefetchResult parseTime now st snap v).number_of_departures < n) := by
      rw [hnd]; omega
    have h2 : ¬ ((prefetchResult parseTime now st snap v).service_List.length ≤ n - 1) := by
      rw [hsl]; simp; omega
    unfold getOrdinalDeparture
    rw [if_neg h1, if_neg h2, hsl, hlen, safe_at_replicate]

/-- C9 witness: the sample state, an ordinal past the configured count,
and a concrete empty-snapshot ingestion. -/
theorem ordinal_departure_spec_witness :
    getOrdinalDeparture sampleState 1 = .ok (getFirstDeparture sampleState) ∧
    getOrdinalDeparture sampleState 4
      = .error (.outOfRange "Ordinal service number out of range") ∧
    getOrdinalDeparture
      (updateCache sampleParse sampleParseTime 3600 sampleState "empty" 6).2 2 = .ok 999 := by
  have h := ordinal_departure_spec sampleState rfl (by decide)
  exact ⟨h.1, h.2.1 4 (by decide),
    h.2.2 sampleParse sampleParseTime 3600 "empty" 6 emptySnap rfl rfl (by decide) 2
      (by decide) (by decide)⟩

/-! ## C2 — the departure ordering -/

theorem effDepLt_char (tl : List Int) (a b : Nat) :
    effDepLt tl a b = true ↔
      ((tl.getD a INVALID_TIME = INVALID_TIME ∧ tl.getD b INVALID_TIME = INVALID_TIME ∧ a < b)
        ∨ (tl.getD a INVALID_TIME ≠ INVALID_TIME ∧ tl.getD b INVALID_TIME = INVALID_TIME)
        ∨ (tl.getD a INVALID_TIME ≠ INVALID_TIME ∧ tl.getD b INVALID_TIME ≠ INVALID_TIME
            ∧ tl.getD a INVALID_TIME < tl.getD b INVALID_TIME)) := by
  simp only [effDepLt]
  split_ifs with h1 h2 h3
  · simp only [decide_eq_true_eq]
    omega
  · simp only [Bool.false_eq_true, false_iff]
    omega
  · simp only [eq_self_iff_true, true_iff]
    omega
  · simp only [decide_eq_true_eq]
    omega

theorem effDepLe_char (tl : List Int) (a b : Nat) :
    effDepLe tl a b ↔
      ¬ ((tl.getD b INVALID_TIME = INVALID_TIME ∧ tl.getD a INVALID_TIME = INVALID_TIME ∧ b < a)
        ∨ (tl.getD b INVALID_TIME ≠ INVALID_TIME ∧ tl.getD a INVALID_TIME = INVALID_TIME)
        ∨ (tl.getD b INVALID_TIME ≠ INVALID_TIME ∧ tl.getD a INVALID_TIME ≠ INVALID_TIME
            ∧ tl.getD b INVALID_TIME < tl.getD a INVALID_TIME)) := by
  rw [← effDepLt_char]
  unfold effDepLe
  exact ⟨fun h => by simp [h], fun h => by simpa using h⟩

theorem effDepLe_total (tl : List Int) : ∀ a b, effDepLe tl a b ∨ effDepLe tl b a := by
  intro a b
  rw [effDepLe_char, effDepLe_char]
  omega

theorem effDepLe_trans (tl : List Int) :
    ∀ a b c, effDepLe tl a b → effDepLe tl b c → effDepLe tl a c := by
  intro a b c
  rw [effDepLe_char, effDepLe_char, effDepLe_char]
  omega

/-- C2: the ordering computed by `orderTheDepartureList` over the
effective departure times of the ingested services is a permutation of
the indices `0..n-1` in which (reading positions left to right) an
`INVALID_TIME` index is never followed by a valid-time index, two
`INVALID_TIME` indices keep their original relative order, and two
valid-time indices are in ascending time order.  The proof uses only
that the result is a permutation of `0..n-1` pairwise ordered by the
non-strict version of the comparator, which is guaranteed of every
`std::sort` execution. -/
theorem ordering_spec (seq : List ServiceSequence) (n : Nat) :
    (orderedDepartures (seq.map (fun s => s.departure_time)) n).Perm (List.range n) ∧
    List.Pairwise
      (fun a b =>
        ((seq.map (fun s => s.departure_time)).getD a INVALID_TIME = INVALID_TIME →
          (seq.map (fun s => s.departure_time)).getD b INVALID_TIME = INVALID_TIME ∧ a < b) ∧
        ((seq.map (fun s => s.departure_time)).getD a INVALID_TIME ≠ INVALID_TIME →
          (seq.map (fun s => s.departure_time)).getD b INVALID_TIME ≠ INVALID_TIME →
          (seq.map (fun s => s.departure_time)).getD a INVALID_TIME
            ≤ (seq.map (fun s => s.departure_time)).getD b INVALID_TIME))
      (orderedDepartures (seq.map (fun s => s.departure_time)) n) := by
  set tl := seq.map (fun s => s.departure_time) with htl
  haveI ht : IsTotal Nat (effDepLe tl) := ⟨effDepLe_total tl⟩
  haveI htr : IsTrans Nat (effDepLe tl) := ⟨effDepLe_trans tl⟩
  have hperm : (orderedDepartures tl n).Perm (List.range n) :=
    List.perm_insertionSort (effDepLe tl) (List.range n)
  refine ⟨hperm, ?_⟩
  have hsorted : List.Pairwise (effDepLe tl) (orderedDepartures tl n) :=
    List.sorted_insertionSort (effDepLe tl) (List.range n)
  have hnodup : (orderedDepartures tl n).Nodup :=
    hperm.symm.nodup (List.nodup_range n)
  refine (hsorted.and hnodup).imp ?_
  intro a b hab
  obtain ⟨hle, hne⟩ := hab
  rw [effDepLe_char] at hle
  constructor
  · intro ha
    constructor
    · by_contra hb
      exact hle (Or.inr (Or.inl ⟨hb, ha⟩))
    · have : ¬ b < a := fun hba => by
        by_cases hb : tl.getD b INVALID_TIME = INVALID_TIME
        · exact hle (Or.inl ⟨hb, ha, hba⟩)
        · exact hle (Or.inr (Or.inl ⟨hb, ha⟩))
      omega
  · intro ha hb
    by_contra hlt
    exact hle (Or.inr (Or.inr ⟨hb, ha, by omega⟩))

/-- C2 witness: three services with effective times 7, `INVALID`, 3
order as `[2, 0, 1]` (valid times ascending, the invalid one last). -/
theorem ordering_spec_witness :
    (orderedDepartures
        (([{ departure_time := 7 }, { departure_time := 0 }, { departure_time := 3 }]
            : List ServiceSequence).map (fun s => s.departure_time)) 3).Perm (List.range 3) ∧
    orderedDepartures
        (([{ departure_time := 7 }, { departure_time := 0 }, { departure_time := 3 }]
            : List ServiceSequence).map (fun s => s.departure_time)) 3 = [2, 0, 1] :=
  ⟨(ordering_spec
      [{ departure_time := 7 }, { departure_time := 0 }, { departure_time := 3 }] 3).1,
    by decide⟩

/-! ## The `unordered_map` embedding: find/insert lemmas -/

theorem umapFind_map_ne (m : List (String × Nat)) (k : String) (v : Nat) (k' : String)
    (h : k' ≠ k) :
    umapFind (m.map (fun p => if p.1 = k then (k, v) else p)) k' = umapFind m k' := by
  induction m with
  | nil => rfl
  | cons p rest ih =>
    by_cases h1 : p.1 = k
    · simp [umapFind, h1, Ne.symm h, ih]
    · simp only [List.map_cons, if_neg h1, umapFind]
      by_cases h2 : p.1 = k' <;> simp [h2, ih]

theorem umapFind_map_self (m : List (String × Nat)) (k : String) (v : Nat)
    (hs : (umapFind m k).isSome = true) :
    umapFind (m.map (fun p => if p.1 = k then (k, v) else p)) k = some v := by
  induction m with
  | nil => simp [umapFind] at hs
  | cons p rest ih =>
    by_cases h1 : p.1 = k
    · simp [umapFind, h1]
    · have hs' : (umapFind rest k).isSome = true := by
        simpa [umapFind, h1] using hs
      simp only [List.map_cons, if_neg h1, umapFind, if_neg h1]
      exact ih hs'

theorem umapFind_append_single (m : List (String × Nat)) (k : String) (v : Nat)
    (k' : String) :
    umapFind (m ++ [(k, v)]) k' =
      if (umapFind m k').isSome then umapFind m k'
      else if k = k' then some v else none := by
  induction m with
  | nil => simp [umapFind]
  | cons p rest ih =>
    by_cases h1 : p.1 = k' <;> simp [umapFind, h1, ih]

theorem umapFind_insert (m : List (String × Nat)) (k : String) (v : Nat) (k' : String) :
    umapFind (umapInsert m k v) k' = if k' = k then some v else umapFind m k' := by
  unfold umapInsert
  by_cases hs : (umapFind m k).isSome = true
  · rw [if_pos hs]
    by_cases h2 : k' = k
    · subst h2
      rw [if_pos rfl, umapFind_map_self m k' v hs]
    · rw [if_neg h2, umapFind_map_ne m k v k' h2]
  · rw [if_neg hs, umapFind_append_single]
    have hnone : umapFind m k = none := by
      cases h : umapFind m k
      · rfl
      · rw [h] at hs
        simp at hs
    by_cases h2 : k' = k
    · subst h2
      rw [hnone]
      simp
    · by_cases h3 : (umapFind m k').isSome = true
      · simp [h3, h2]
      · have hq : umapFind m k' = none := by
          cases h : umapFind m k'
          · rfl
          · rw [h] at h3
            simp at h3
        have h2' : k ≠ k' := fun hh => h2 hh.symm
        simp [h3, hq, h2, h2']

theorem umapInsert_length_of_fresh (m : List (String × Nat)) (k : String) (v : Nat)
    (h : umapFind m k = none) :
    (umapInsert m k v).length = m.length + 1 := by
  simp [umapInsert, h]

/-! The train-id map built by the prefetch loop: with distinct
identifiers, the `i`-th identifier maps to index `i`. -/

theorem buildTrainIdMap_spec :
    ∀ (ids : List String) (m0 : List (String × Nat)),
      ids.Nodup → (∀ k ∈ ids, umapFind m0 k = none) →
      (buildTrainIdMap ids m0).length = m0.length + ids.length ∧
      (∀ j, j < ids.length →
        umapFind (buildTrainIdMap ids m0) (ids.getD j "") = some (m0.length + j)) ∧
      (∀ k, k ∉ ids → umapFind (buildTrainIdMap ids m0) k = umapFind m0 k) := by
  intro ids
  induction ids with
  | nil =>
    intro m0 _ _
    refine ⟨by simp [buildTrainIdMap], ?_, ?_⟩ <;> simp [buildTrainIdMap]
  | cons k0 rest ih =>
    intro m0 hnd hfresh
    have hk0 : umapFind m0 k0 = none := hfresh k0 (by simp)
    have hstep : buildTrainIdMap (k0 :: rest) m0
        = buildTrainIdMap rest (umapInsert m0 k0 m0.length) := by
      simp [buildTrainIdMap, umapSize]
    have hnd' : rest.Nodup := hnd.of_cons
    have hk0notin : k0 ∉ rest := (List.nodup_cons.mp hnd).1
    have hfresh' : ∀ k ∈ rest, umapFind (umapInsert m0 k0 m0.length) k = none := by
      intro k hk
      rw [umapFind_insert]
      have hne : k ≠ k0 := fun h => hk0notin (h ▸ hk)
      rw [if_neg hne]
      exact hfresh k (by simp [hk])
    have hlen1 : (umapInsert m0 k0 m0.length).length = m0.length + 1 :=
      umapInsert_length_of_fresh m0 k0 m0.length hk0
    obtain ⟨ihlen, ihfind, ihout⟩ := ih (umapInsert m0 k0 m0.length) hnd' hfresh'
    refine ⟨?_, ?_, ?_⟩
    · rw [hstep, ihlen, hlen1]
      simp
      omega
    · intro j hj
      cases j with
      | zero =>
        rw [hstep, show (k0 :: rest).getD 0 "" = k0 from rfl,
          ihout k0 hk0notin, umapFind_insert, if_pos rfl]
        simp
      | succ j' =>
        rw [hstep, show (k0 :: rest).getD (j' + 1) "" = rest.getD j' "" from rfl]
        have hj' : j' < rest.length := by simpa using hj
        rw [ihfind j' hj', hlen1]
        simp only [Option.some.injEq]
        omega
    · intro k hk
      rw [hstep]
      have hk1 : k ∉ rest := fun h => hk (by simp [h])
      have hk2 : k ≠ k0 := fun h => hk (by simp [h])
      rw [ihout k hk1, umapFind_insert, if_neg hk2]

/-! ## C10 — reason-code defaults -/

theorem getD_append_left_dcr (l l' : List DelayCancelReason) (i : Nat)
    (d : DelayCancelReason) (h : i < l.length) :
    (l ++ l').getD i d = l.getD i d := by
  simp [List.getD, List.getElem?_append_left h]

theorem getD_concat_length_dcr (l : List DelayCancelReason) (x d : DelayCancelReason) :
    (l ++ [x]).getD l.length d = x := by
  simp [List.getD, List.getElem?_concat_length]

theorem extractJSONvalueStr_ne_empty (o : Option String) (d : String) (hd : d ≠ "") :
    extractJSONvalueStr o d ≠ "" := by
  cases o with
  | none => simpa [extractJSONvalueStr] using hd
  | some s =>
    by_cases h : s = "" <;> simp [extractJSONvalueStr, h, hd]

/-- After the remaining records are folded in, an already-recorded code's
map entry and reason record survive untouched, provided none of the
remaining records carries the same code string. -/
theorem loadReasonCodes_fold_preserves :
    ∀ (rs : List ReasonJson) (m : List (String × Nat)) (vec : List DelayCancelReason)
      (k : String) (i : Nat) (x : DelayCancelReason),
      umapFind m k = some i → i < vec.length → vec.getD i {} = x →
      (∀ r ∈ rs, toString r.code ≠ k) →
      umapFind (rs.foldl loadReasonCodesStep (m, vec)).1 k = some i ∧
      i < (rs.foldl loadReasonCodesStep (m, vec)).2.length ∧
      (rs.foldl loadReasonCodesStep (m, vec)).2.getD i {} = x := by
  intro rs
  induction rs with
  | nil =>
    intro m vec k i x h1 h2 h3 _
    exact ⟨h1, h2, h3⟩
  | cons r0 rest ih =>
    intro m vec k i x h1 h2 h3 hne
    have hstep : (r0 :: rest).foldl loadReasonCodesStep (m, vec)
        = rest.foldl loadReasonCodesStep (loadReasonCodesStep (m, vec) r0) := by
      simp
    rw [hstep]
    apply ih
    · show umapFind (umapInsert m (toString r0.code) (umapSize m)) k = some i
      rw [umapFind_insert, if_neg (fun hh => hne r0 (by simp) hh.symm)]
      exact h1
    · show i < (vec ++ [_]).length
      simp
      omega
    · show (vec ++ [_]).getD i {} = x
      rw [getD_append_left_dcr _ _ _ _ h2]
      exact h3
    · intro r hr
      exact hne r (by simp [hr])

/-- The reason-code load over a feed of distinct code strings: starting
from a map and vector of equal length with all codes fresh, every
record's code is found in the final map and indexes that record's reason
texts, and a key carried by no record finds whatever it found before. -/
theorem loadReasonCodes_fold_spec :
    ∀ (rs : List ReasonJson) (m0 : List (String × Nat)) (v0 : List DelayCancelReason),
      m0.length = v0.length →
      List.Pairwise (fun a b => toString a.code ≠ toString b.code) rs →
      (∀ r ∈ rs, umapFind m0 (toString r.code) = none) →
      (∀ r ∈ rs, ∃ i,
        umapFind (rs.foldl loadReasonCodesStep (m0, v0)).1 (toString r.code) = some i ∧
        i < (rs.foldl loadReasonCodesStep (m0, v0)).2.length ∧
        (rs.foldl loadReasonCodesStep (m0, v0)).2.getD i {} =
          { code := toString r.code
            delayReason := extractJSONvalueStr r.lateReason "No Reason"
            cancelReason := extractJSONvalueStr r.cancReason "No Reason" }) ∧
      (∀ k, (∀ r ∈ rs, toString r.code ≠ k) →
        umapFind (rs.foldl loadReasonCodesStep (m0, v0)).1 k = umapFind m0 k) := by
  intro rs
  induction rs with
  | nil =>
    intro m0 v0 _ _ _
    exact ⟨by simp, by simp⟩
  | cons r0 rest ih =>
    intro m0 v0 hlen hnd hfresh
    have hk0 : umapFind m0 (toString r0.code) = none := hfresh r0 (by simp)
    have hstep : (r0 :: rest).foldl loadReasonCodesStep (m0, v0)
        = rest.foldl loadReasonCodesStep (loadReasonCodesStep (m0, v0) r0) := by
      simp
    have hacc : loadReasonCodesStep (m0, v0) r0
        = (umapInsert m0 (toString r0.code) (umapSize m0),
           v0 ++ [{ code := toString r0.code
                    delayReason := extractJSONvalueStr r0.lateReason "No Reason"
                    cancelReason := extractJSONvalueStr r0.cancReason "No Reason" }]) := rfl
    have hndrest : List.Pairwise (fun a b => toString a.code ≠ toString b.code) rest :=
      hnd.of_cons
    have hhead : ∀ r ∈ rest, toString r0.code ≠ toString r.code :=
      fun r hr => List.rel_of_pairwise_cons hnd hr
    have hm1len : (umapInsert m0 (toString r0.code) (umapSize m0)).length
        = m0.length + 1 :=
      umapInsert_length_of_fresh _ _ _ hk0
    have hfresh' : ∀ r ∈ rest,
        umapFind (umapInsert m0 (toString r0.code) (umapSize m0)) (toString r.code)
          = none := by
      intro r hr
      rw [umapFind_insert, if_neg (fun hh => hhead r hr hh.symm)]
      exact hfresh r (by simp [hr])
    have hlen' : (umapInsert m0 (toString r0.code) (umapSize m0)).length
        = (v0 ++ [({ code := toString r0.code
                     delayReason := extractJSONvalueStr r0.lateReason "No Reason"
                     cancelReason := extractJSONvalueStr r0.cancReason "No Reason" }
                   : DelayCancelReason)]).length := by
      rw [hm1len]
      simp [hlen]
    obtain ⟨ihmem, ihout⟩ := ih (umapInsert m0 (toString r0.code) (umapSize m0)) _
      hlen' hndrest hfresh'
    constructor
    · intro r hr
      rcases List.mem_cons.mp hr with hr0 | hrest
    
      · subst hr0
        rw [hstep, hacc]
        refine ⟨umapSize m0, ?_⟩
        apply loadReasonCodes_fold_preserves rest _ _ _ _ _
          ?_ ?_ ?_ (fun r' hr' => (hhead r' hr').symm)
        · rw [umapFind_insert, if_pos rfl]
        · show umapSize m0 < (v0 ++ [_]).length
          simp [umapSize, hlen]
        · show (v0 ++ [_]).getD (umapSize m0) {} = _
          rw [show umapSize m0 = v0.length from by simp [umapSize, hlen],
            getD_concat_length_dcr]
      · rw [hstep]
        exact ihmem r hrest
    · intro k hne
      rw [hstep, hacc, ihout k (fun r hr => hne r (by simp [hr])),
        umapFind_insert, if_neg ?_]
      exact fun hh => hne r0 (by simp) hh.symm

/-- C10: loading a reason-code feed (with distinct code strings) into a
fresh parser stores `"No Reason"` for every record whose
`lateReason`/`cancReason` is absent, null or empty, so decoding any code
present in the feed never yields the empty string — and `"No Reason"`
where the text was missing — while a code absent from the feed decodes
to the empty string. -/
theorem reason_code_defaults (st : ParserState) (refdata : List ReasonJson)
    (hm : st.reason_codes = [])
    (hnd : List.Pairwise (fun a b => toString a.code ≠ toString b.code) refdata) :
    (∀ r ∈ refdata,
      ((r.lateReason = none ∨ r.lateReason = some "") →
        decodeDelayCode (loadReasonCodes st refdata) r.code = "No Reason") ∧
      ((r.cancReason = none ∨ r.cancReason = some "") →
        decodeCancelCode (loadReasonCodes st refdata) r.code = "No Reason") ∧
      decodeDelayCode (loadReasonCodes st refdata) r.code ≠ "" ∧
      decodeCancelCode (loadReasonCodes st refdata) r.code ≠ "") ∧
    (∀ c : Nat, (∀ r ∈ refdata, toString r.code ≠ toString c) →
      decodeDelayCode (loadReasonCodes st refdata) c = "" ∧
      decodeCancelCode (loadReasonCodes st refdata) c = "") := by
  have hfold := loadReasonCodes_fold_spec refdata st.reason_codes [] (by simp [hm])
    hnd (by simp [hm, umapFind])
  obtain ⟨hmem, hout⟩ := hfold
  have hrc : (loadReasonCodes st refdata).reason_codes
      = (refdata.foldl loadReasonCodesStep (st.reason_codes, [])).1 := rfl
  have hdc : (loadReasonCodes st refdata).delay_cancel_reasons
      = (refdata.foldl loadReasonCodesStep (st.reason_codes, [])).2 := rfl
  constructor
  · intro r hr
    obtain ⟨i, hfind, hlt, hgetD⟩ := hmem r hr
    have hdelay : decodeDelayCode (loadReasonCodes st refdata) r.code
        = extractJSONvalueStr r.lateReason "No Reason" := by
      unfold decodeDelayCode
      rw [hrc, hfind]
      show ((loadReasonCodes st refdata).delay_cancel_reasons.getD i {}).delayReason = _
      rw [hdc, hgetD]
    have hcancel : decodeCancelCode (loadReasonCodes st refdata) r.code
        = extractJSONvalueStr r.cancReason "No Reason" := by
      unfold decodeCancelCode
      rw [hrc, hfind]
      show ((loadReasonCodes st refdata).delay_cancel_reasons.getD i {}).cancelReason = _
      rw [hdc, hgetD]
    refine ⟨?_, ?_, ?_, ?_⟩
    · intro hcase
      rw [hdelay]
      rcases hcase with h | h <;> simp [h, extractJSONvalueStr]
    · intro hcase
      rw [hcancel]
      rcases hcase with h | h <;> simp [h, extractJSONvalueStr]
    · rw [hdelay]
      exact extractJSONvalueStr_ne_empty _ _ (by simp)
    · rw [hcancel]
      exact extractJSONvalueStr_ne_empty _ _ (by simp)
  · intro c hc
    have hnone : umapFind (loadReasonCodes st refdata).reason_codes (toString c) = none := by
      rw [hrc, hout (toString c) hc, hm]
      rfl
    constructor
    · unfold decodeDelayCode
      rw [hnone]
    · unfold decodeCancelCode
      rw [hnone]

/-- C10 witness: on the concrete sample feed, code 102 (no texts at all)
and code 101 (empty cancellation text) decode to `"No Reason"`, code
100's provided delay text survives, and the unknown code 999 decodes to
the empty string. -/
theorem reason_code_defaults_witness :
    decodeDelayCode (loadReasonCodes ({} : ParserState) sampleReasons) 102 = "No Reason" ∧
    decodeCancelCode (loadReasonCodes ({} : ParserState) sampleReasons) 101 = "No Reason" ∧
    decodeDelayCode (loadReasonCodes ({} : ParserState) sampleReasons) 100
      = "Late running crew" ∧
    decodeDelayCode (loadReasonCodes ({} : ParserState) sampleReasons) 999 = "" := by
  have h := reason_code_defaults ({} : ParserState) sampleReasons rfl (by decide)
  refine ⟨?_, ?_, by decide, ?_⟩
  · exact (h.1 { code := 102 } (by decide)).1 (Or.inl rfl)
  · exact (h.1 { code := 101, cancReason := some "" } (by decide)).2.1 (Or.inr rfl)
  · exact (h.2 999 (by decide)).1

/-! ## C3 — identity migration across consecutive ingestions -/

theorem getD_map_range_append {α : Type} (n pad : Nat) (f : Nat → α) (d : α) (i : Nat)
    (hi : i < n) :
    (((List.range n).map f) ++ List.replicate pad d).getD i d = f i := by
  have hlen : i < ((List.range n).map f).length := by simpa using hi
  rw [List.getD_eq_getElem?_getD, List.getElem?_append_left hlen]
  simp [List.getElem?_map, List.getElem?_range hi]

theorem snapTrainIds_getD (snap : Snapshot) (n i : Nat) (hi : i < n) :
    (snapTrainIds snap n).getD i ""
      = svcTrainid ((snap.trainServices.getD []).getD i ({} : ServiceJson)) := by
  simp [snapTrainIds, List.getD_eq_getElem?_getD, List.getElem?_map, List.getElem?_range hi]

theorem buildSequenceEntry_trainid (parseTime : String → Option Int) (now v : Int)
    (svc : ServiceJson) :
    (buildSequenceEntry parseTime now v svc).trainid = svcTrainid svc := rfl

theorem prefetchResult_cached_trainIDs (parseTime : String → Option Int) (now : Int)
    (st : ParserState) (snap : Snapshot) (v : Int) :
    (prefetchResult parseTime now st snap v).cached_trainIDs
      = buildTrainIdMap (snapTrainIds snap (prefetchN st snap)) [] := by
  show buildTrainIdMap
      (((List.range (prefetchN st snap)).map
          (fun i => buildSequenceEntry parseTime now v
            ((snap.trainServices.getD []).getD i ({} : ServiceJson)))).map
        (fun e => e.trainid)) []
    = buildTrainIdMap (snapTrainIds snap (prefetchN st snap)) []
  rw [List.map_map]
  rfl

theorem prefetchResult_tier_getD (parseTime : String → Option Int) (now : Int)
    (st : ParserState) (snap : Snapshot) (v : Int) (i : Nat)
    (hi : i < prefetchN st snap) :
    (prefetchResult parseTime now st snap v).services_basic.getD i {}
      = (migrateTiers st
          (svcTrainid ((snap.trainServices.getD []).getD i ({} : ServiceJson)))).1 ∧
    (prefetchResult parseTime now st snap v).services_additions.getD i {}
      = (migrateTiers st
          (svcTrainid ((snap.trainServices.getD []).getD i ({} : ServiceJson)))).2.1 ∧
    (prefetchResult parseTime now st snap v).services_callingpoints.getD i {}
      = (migrateTiers st
          (svcTrainid ((snap.trainServices.getD []).getD i ({} : ServiceJson)))).2.2 := by
  refine ⟨?_, ?_, ?_⟩
  · rw [show (prefetchResult parseTime now st snap v).services_basic
        = ((List.range (prefetchN st snap)).map
            (fun k => migrateTiers st
              (svcTrainid ((snap.trainServices.getD []).getD k ({} : ServiceJson))))).map
            (fun t => t.1)
          ++ List.replicate (st.max_json_size - prefetchN st snap) ({} : BasicServiceInfo)
        from rfl, List.map_map]
    exact getD_map_range_append _ _ _ _ i hi
  · rw [show (prefetchResult parseTime now st snap v).services_additions
        = ((List.range (prefetchN st snap)).map
            (fun k => migrateTiers st
              (svcTrainid ((snap.trainServices.getD []).getD k ({} : ServiceJson))))).map
            (fun t => t.2.1)
          ++ List.replicate (st.max_json_size - prefetchN st snap)
              ({} : AdditionalServiceInfo)
        from rfl, List.map_map]
    exact getD_map_range_append _ _ _ _ i hi
  · rw [show (prefetchResult parseTime now st snap v).services_callingpoints
        = ((List.range (prefetchN st snap)).map
            (fun k => migrateTiers st
              (svcTrainid ((snap.trainServices.getD []).getD k ({} : ServiceJson))))).map
            (fun t => t.2.2)
          ++ List.replicate (st.max_json_size - prefetchN st snap) ({} : CallingPointsInfo)
        from rfl, List.map_map]
    exact getD_map_range_append _ _ _ _ i hi

/-- C3: across two consecutive successful ingestions, a train identifier
of the previous snapshot (position `j`) that reappears in the new
snapshot (position `i`) has its Basic and Additional tier records carried
to the new index identical to the previous ones — version stamps
untouched — and its CallingPoints tier carried with both cached flags
forced to false; an identifier absent from the previous snapshot starts
with all three tiers never hydrated (availability/cached flags false).
The previous snapshot's identifiers are assumed pairwise distinct (the
identifier map keys one index per identifier). -/
theorem identity_migration
    (parse : String → Option Snapshot) (parseTime : String → Option Int)
    (now1 now2 : Int) (st0 st1 st2 : ParserState) (s1 s2 : String) (v1 v2 : Int)
    (snap1 snap2 : Snapshot)
    (hl : st0.refdata_loaded = true)
    (hp1 : parse s1 = some snap1) (hp2 : parse s2 = some snap2)
    (hst1 : prefetchCache parse parseTime now1 st0 s1 v1 = (none, st1))
    (hst2 : prefetchCache parse parseTime now2 st1 s2 v2 = (none, st2))
    (hnd : (snapTrainIds snap1 (prefetchN st0 snap1)).Nodup)
    (i : Nat) (hi : i < prefetchN st1 snap2) :
    (∀ j, j < prefetchN st0 snap1 →
      (snapTrainIds snap2 (prefetchN st1 snap2)).getD i ""
        = (snapTrainIds snap1 (prefetchN st0 snap1)).getD j "" →
      st2.services_basic.getD i {} = st1.services_basic.getD j {} ∧
      st2.services_additions.getD i {} = st1.services_additions.getD j {} ∧
      st2.services_callingpoints.getD i {}
        = { st1.services_callingpoints.getD j {} with
            callingPointsCached := false
            service_location_cached := false }) ∧
    ((snapTrainIds snap2 (prefetchN st1 snap2)).getD i ""
        ∉ snapTrainIds snap1 (prefetchN st0 snap1) →
      (st2.services_basic.getD i {}).static_data_available = false ∧
      (st2.services_additions.getD i {}).static_data_available = false ∧
      (st2.services_callingpoints.getD i {}).callingPointsCached = false ∧
      (st2.services_callingpoints.getD i {}).service_location_cached = false) := by
  have hres1 : st1 = prefetchResult parseTime now1 st0 snap1 v1 := by
    have h := prefetchCache_success parse parseTime now1 st0 s1 v1 snap1 hl hp1
    exact (congrArg Prod.snd (h.symm.trans hst1)).symm
  have hl1 : st1.refdata_loaded = true := by
    rw [hres1, (prefetchResult_fields parseTime now1 st0 snap1 v1).2.2.2.2.2.1]
    exact hl
  have hres2 : st2 = prefetchResult parseTime now2 st1 snap2 v2 := by
    have h := prefetchCache_success parse parseTime now2 st1 s2 v2 snap2 hl1 hp2
    exact (congrArg Prod.snd (h.symm.trans hst2)).symm
  have hfreshnil : ∀ k ∈ snapTrainIds snap1 (prefetchN st0 snap1), umapFind [] k = none :=
    fun k _ => rfl
  obtain ⟨-, hfindj, hnotin⟩ :=
    buildTrainIdMap_spec (snapTrainIds snap1 (prefetchN st0 snap1)) [] hnd hfreshnil
  have hmap : st1.cached_trainIDs
      = buildTrainIdMap (snapTrainIds snap1 (prefetchN st0 snap1)) [] := by
    rw [hres1, prefetchResult_cached_trainIDs]
  obtain ⟨hb, ha, hc⟩ := prefetchResult_tier_getD parseTime now2 st1 snap2 v2 i hi
  set tid := svcTrainid ((snap2.trainServices.getD []).getD i ({} : ServiceJson)) with htiddef
  have htid_eq : (snapTrainIds snap2 (prefetchN st1 snap2)).getD i "" = tid :=
    snapTrainIds_getD snap2 _ i hi
  constructor
  · intro j hj heq
    have htidj : tid = (snapTrainIds snap1 (prefetchN st0 snap1)).getD j "" := by
      rw [← htid_eq]
      exact heq
    have hj' : j < (snapTrainIds snap1 (prefetchN st0 snap1)).length := by
      simpa [snapTrainIds] using hj
    have hfind : umapFind st1.cached_trainIDs tid = some j := by
      rw [hmap, htidj, hfindj j hj']
      simp
    have hmig : migrateTiers st1 tid
        = (st1.services_basic.getD j {}, st1.services_additions.getD j {},
           { st1.services_callingpoints.getD j {} with
              callingPointsCached := false
              service_location_cached := false }) := by
      unfold migrateTiers
      rw [hfind]
    refine ⟨?_, ?_, ?_⟩
    · rw [hres2, hb, hmig]
    · rw [hres2, ha, hmig]
    · rw [hres2, hc, hmig]
  · intro hni
    have hnotmem : tid ∉ snapTrainIds snap1 (prefetchN st0 snap1) := by
      rw [← htid_eq]
      exact hni
    have hfind : umapFind st1.cached_trainIDs tid = none := by
      rw [hmap, hnotin tid hnotmem]
      rfl
    have hmig : migrateTiers st1 tid
        = ({ static_data_available := false, trainid := tid },
           { static_data_available := false, trainid := tid },
           { callingPointsCached := false, service_location_cached := false,
             trainid := tid }) := by
      unfold migrateTiers
      rw [hfind]
    refine ⟨?_, ?_, ?_, ?_⟩
    · rw [hres2, hb, hmig]
    · rw [hres2, ha, hmig]
    · rw [hres2, hc, hmig]
    · rw [hres2, hc, hmig]

/-- C3 witness: ingest `sampleSnap` (train `T1` at index 0, version 6)
then `sampleSnap2` (new train `T2` at index 0, `T1` moved to index 1,
version 7): `T1`'s Basic/Additional tiers are carried to index 1
verbatim, its CallingPoints tier is carried with the cached flags forced
off, and the new `T2`'s tiers start never-hydrated. -/
theorem identity_migration_witness :
    (let st1 := (prefetchCache sampleParse sampleParseTime 3600 sampleState "body" 6).2
     let st2 := (prefetchCache sampleParse sampleParseTime 3600 st1 "snap2" 7).2
     (st2.services_basic.getD 1 {} = st1.services_basic.getD 0 {} ∧
      st2.services_additions.getD 1 {} = st1.services_additions.getD 0 {} ∧
      st2.services_callingpoints.getD 1 {}
        = { st1.services_callingpoints.getD 0 {} with
            callingPointsCached := false
            service_location_cached := false }) ∧
     (st2.services_basic.getD 0 {}).static_data_available = false) := by
  have h := identity_migration sampleParse sampleParseTime 3600 3600 sampleState
    (prefetchCache sampleParse sampleParseTime 3600 sampleState "body" 6).2
    (prefetchCache sampleParse sampleParseTime 3600
      (prefetchCache sampleParse sampleParseTime 3600 sampleState "body" 6).2 "snap2" 7).2
    "body" "snap2" 6 7 sampleSnap sampleSnap2 rfl rfl rfl rfl rfl
    (by decide) 1 (by decide)
  have h0 := identity_migration sampleParse sampleParseTime 3600 3600 sampleState
    (prefetchCache sampleParse sampleParseTime 3600 sampleState "body" 6).2
    (prefetchCache sampleParse sampleParseTime 3600
      (prefetchCache sampleParse sampleParseTime 3600 sampleState "body" 6).2 "snap2" 7).2
    "body" "snap2" 6 7 sampleSnap sampleSnap2 rfl rfl rfl rfl rfl
    (by decide) 0 (by decide)
  exact ⟨h.1 0 (by decide) (by decide), (h0.2 (by decide)).1⟩
